import Mathlib

/-
  Verification development for the r.colors.lc GRASS GIS addon
  (src/r.colors.lc.py).  The single entry point `main` is embedded as a
  pure function from an options record and an environment of external
  collaborators (capability probe, category-label listing, cell-statistics
  queries, raster-info datatype, randomness source) to the ordered list of
  observable events it performs: messages, warnings, fatal termination,
  external module invocations, metadata queries, and the streaming
  writes of the color table and category labels.
-/

namespace RColorsLc

/-- RGB color triple; the program only ever builds channel values with
`randrange(255)`, so channels are natural numbers. -/
structure Color where
  r : Nat
  g : Nat
  b : Nat
deriving DecidableEq, Repr

/-- Python's `randrange(bound)` returns an integer in `[0, bound)`.  We model
the randomness source as an arbitrary stream of raw naturals supplied by the
environment and reduce each draw into the required range, which captures
exactly the contract of `randrange`. -/
def randrange (bound : Nat) (raw : Nat) : Nat := raw % bound

/-- `colors_to_generate = 40` (src/r.colors.lc.py line 124). -/
def colors_to_generate : Nat := 40

/-- The pool of `colors_to_generate` random colors, each channel drawn with
`randrange(255)` (src/r.colors.lc.py lines 123-128); draw `3*i`, `3*i+1`,
`3*i+2` of the stream feed the three channels of color `i`. -/
def randomColorPool (rand : Nat → Nat) : List Color :=
  (List.range colors_to_generate).map fun i =>
    ⟨randrange 255 (rand (3 * i)), randrange 255 (rand (3 * i + 1)),
      randrange 255 (rand (3 * i + 2))⟩

/-- `"{}:{}:{}".format(r, g, b)` -/
def Color.format (c : Color) : String :=
  toString c.r ++ ":" ++ toString c.g ++ ":" ++ toString c.b

/-- `line.split("|")[0]` (src/r.colors.lc.py lines 133 and 160). -/
def firstField (line : String) : String :=
  (line.splitOn "|").headD ""

/-- `cellvals = [line.split("|")[0] for line in cellstats.splitlines()]`
(src/r.colors.lc.py line 133), applied to the lines of one `r.stats` query. -/
def cellVals (statLines : List String) : List String :=
  statLines.map firstField

/-- `colors_str = ["%s %s" % (val, color) for val, color in
zip(cellvals, random_colors[:len(cellvals)])]` (src/r.colors.lc.py 143-146):
the pool is sliced to the number of values, then zipped positionally. -/
def colorRules (cellvals : List String) (pool : List Color) : List String :=
  (cellvals.zip (pool.take cellvals.length)).map fun p => p.1 ++ " " ++ p.2.format

/-- One label rule `"%s|%s" % (val, val)` for a statistics line
(src/r.colors.lc.py line 161). -/
def labelRule (line : String) : String :=
  firstField line ++ "|" ++ firstField line

/-- The accumulated `category_text` string: the loop
`category_text += "%s|%s\n" % (val, val)` over the statistics lines
(src/r.colors.lc.py lines 158-161). -/
def categoryText (statLines : List String) : String :=
  statLines.foldl (fun acc line => acc ++ (labelRule line ++ "\n")) ""

/-- `"\t" in label` (src/r.colors.lc.py line 101): Python substring test
with a one-character separator, i.e. the tab character occurs in the
entry. -/
def containsTab (s : String) : Bool := s.data.contains '\t'

/-- The label-completeness loop (src/r.colors.lc.py lines 99-102):
`has_cat_label` starts `True` and is set `False` for every listed entry that
does not contain the tab separator. -/
def hasCatLabel (labels : List String) : Bool :=
  labels.foldl (fun acc label => if containsTab label then acc else false) true

/-- Warning emitted before the random strategy (src/r.colors.lc.py 117-119). -/
def missingLabelsMsg : String :=
  "Input map has missing category labels. Setting random colors..."

/-- Message `"Using colors from column <%s>..." % color_column`
(src/r.colors.lc.py line 105). -/
def usingColorsMsg (color_column : String) : String :=
  "Using colors from column <" ++ color_column ++ ">..."

/-- Message of the fuzzy-match branch (src/r.colors.lc.py line 114). -/
def matchingMsg : String :=
  "Matching land cover classes..."

/-- Warning `"More cells values than %d: ..." % len(random_colors)`
(src/r.colors.lc.py lines 137-142). -/
def poolWarningMsg (poolSize : Nat) : String :=
  "More cells values than " ++ toString poolSize ++
    ": using r.colors color=random; r.colors.out_sld does not work correctly"

/-- Fatal remediation message for a missing v.colors.to.rast module
(src/r.colors.lc.py lines 79-86); it names the installation step
`g.extension`. -/
def vColorsFatalMsg : String :=
  "The v.colors.to.rast module was not found, install it first:" ++ "\n" ++
    "g.extension r.colors.fuzzy_lc url=..."

/-- Fatal remediation message for a missing r.colors.fuzzy_lc module
(src/r.colors.lc.py lines 87-94); it names the installation step
`g.extension`. -/
def fuzzyFatalMsg : String :=
  "The r.colors.fuzzy_lc module was not found, install it first:" ++ "\n" ++
    "g.extension r.colors.fuzzy_lc url=..."

/-- The parsed CLI options (src/r.colors.lc.py lines 72-76); GRASS supplies
the empty string for an omitted optional parameter, and `if color_column:`
tests non-emptiness. -/
structure Options where
  map : String
  referencemap : String
  color_column : String
  class_column : String
deriving DecidableEq, Repr

/-- The external world `main` interacts with:
`findProgram` is the capability probe; `categoryLines` the keys of the
`r.category` listing; `stats k` the lines returned by the `(k+1)`-th
`r.stats` query (the label step re-queries, so query index matters);
`datatype` the `r.info` datatype; `rand` the randomness stream. -/
structure Env where
  findProgram : String → Bool
  categoryLines : List String
  stats : Nat → List String
  datatype : String
  rand : Nat → Nat

/-- Observable events of one run, in program order. -/
inductive Event where
  | fatal (msg : String)
  | message (msg : String)
  | warning (msg : String)
  | queryCategories (map : String)
  | runVColorsToRast (referencemap map color_column class_column : String)
  | runFuzzyLC (map : String)
  | queryStats (map : String)
  | runColorsRandom (map : String)
  | openColorFeed (map : String)
  | writeColorRules (lines : List String)
  | closeColorFeed
  | waitColorFeed
  | queryRasterInfo (map : String)
  | openCategoryFeed (map : String)
  | writeCategoryText (text : String)
  | closeCategoryFeed
  | waitCategoryFeed
deriving DecidableEq, Repr

/-- Events of the `len(cellvals) > len(random_colors)` fallback block
(src/r.colors.lc.py lines 135-142): invoke `r.colors color=random` on the
whole map, then warn naming the pool size. -/
def fallbackEvents (map : String) (env : Env) : List Event :=
  if (cellVals (env.stats 0)).length > (randomColorPool env.rand).length then
    [Event.runColorsRandom map,
     Event.warning (poolWarningMsg (randomColorPool env.rand).length)]
  else []

/-- Events of the color-table streaming write (src/r.colors.lc.py 147-150):
`feed_command`, `stdin.write`, `stdin.close()`, `wait()`. -/
def tableEvents (map : String) (env : Env) : List Event :=
  [Event.openColorFeed map,
   Event.writeColorRules (colorRules (cellVals (env.stats 0)) (randomColorPool env.rand)),
   Event.closeColorFeed,
   Event.waitColorFeed]

/-- Events of the label back-fill (src/r.colors.lc.py lines 154-169), taken
only when the datatype is CELL: a fresh `r.stats` query (index 1), then the
category-label streaming write, close, wait. -/
def labelEvents (map : String) (env : Env) : List Event :=
  if env.datatype = "CELL" then
    [Event.queryStats map,
     Event.openCategoryFeed map,
     Event.writeCategoryText (categoryText (env.stats 1)),
     Event.closeCategoryFeed,
     Event.waitCategoryFeed]
  else []

/-- The random-color branch (src/r.colors.lc.py lines 120-169): generate the
pool, query the distinct values (`r.stats`), maybe run the fallback, always
build and stream the zip-truncated color table, query the raster datatype,
and back-fill labels for CELL maps.  Note the fallback block does not return:
the table write follows it unconditionally. -/
def randomStrategy (map : String) (env : Env) : List Event :=
  Event.queryStats map ::
    (fallbackEvents map env ++ tableEvents map env ++
      (Event.queryRasterInfo map :: labelEvents map env))

/-- The whole `main` (src/r.colors.lc.py lines 70-169): two capability
probes that are fatal on failure, the `r.category` listing and the
label-completeness loop, then the three-way strategy branch. -/
def main (opts : Options) (env : Env) : List Event :=
  if env.findProgram "v.colors.to.rast" = false then
    [Event.fatal vColorsFatalMsg]
  else if env.findProgram "r.colors.fuzzy_lc" = false then
    [Event.fatal fuzzyFatalMsg]
  else
    Event.queryCategories opts.map ::
      (if opts.color_column ≠ "" then
        [Event.message (usingColorsMsg opts.color_column),
         Event.runVColorsToRast opts.referencemap opts.map opts.color_column
           opts.class_column]
      else if hasCatLabel env.categoryLines then
        [Event.message matchingMsg, Event.runFuzzyLC opts.map]
      else
        Event.warning missingLabelsMsg :: randomStrategy opts.map env)

/-! ### Concrete test environments -/

/-- Options giving only the map name (the three optional parameters are
omitted, i.e. empty). -/
def optsPlain : Options := ⟨"m", "", "", ""⟩

/-- Options supplying the collective triple referencemap, color_column and
class_column. -/
def optsAttr : Options := ⟨"m", "refmap", "col", "cls"⟩

/-- Both probes succeed and every category entry carries a tab-separated
label. -/
def envLabeled : Env :=
  { findProgram := fun _ => true
    categoryLines := ["1\tgrass", "2\tforest", "3\twater"]
    stats := fun _ => ["1|4", "2|5", "3|6"]
    datatype := "CELL"
    rand := fun n => n }

/-- Both probes succeed, no entry is labeled; two distinct values; CELL. -/
def envRand : Env :=
  { findProgram := fun _ => true
    categoryLines := ["5", "7"]
    stats := fun _ => ["5|2", "7|3"]
    datatype := "CELL"
    rand := fun n => n }

/-- Random-branch environment with an empty statistics result and a float
raster. -/
def envEmpty : Env :=
  { findProgram := fun _ => true
    categoryLines := ["5"]
    stats := fun _ => []
    datatype := "FCELL"
    rand := fun n => n }

/-- Environment whose capability probe reports every module missing. -/
def envNoProbe : Env :=
  { findProgram := fun _ => false
    categoryLines := []
    stats := fun _ => []
    datatype := "CELL"
    rand := fun n => n }

/-- Environment with an empty category listing. -/
def envNoCats : Env :=
  { findProgram := fun _ => true
    categoryLines := []
    stats := fun _ => []
    datatype := "CELL"
    rand := fun n => n }

/-- Random-branch environment with 41 distinct values, one more than the
pool size. -/
def envMany : Env :=
  { findProgram := fun _ => true
    categoryLines := ["5"]
    stats := fun _ => (List.range 41).map fun i => toString i ++ "|1"
    datatype := "FCELL"
    rand := fun _ => 0 }

/-! ### Basic lemmas about the embedded definitions -/

lemma randomColorPool_length (rand : Nat → Nat) :
    (randomColorPool rand).length = 40 := by
  simp [randomColorPool, colors_to_generate]

lemma colorRules_nil (pool : List Color) : colorRules [] pool = [] := rfl

lemma colorRules_nil_pool (cellvals : List String) : colorRules cellvals [] = [] := by
  simp [colorRules]

lemma colorRules_cons (v : String) (vs : List String) (c : Color) (cs : List Color) :
    colorRules (v :: vs) (c :: cs) = (v ++ " " ++ c.format) :: colorRules vs cs := by
  simp [colorRules, List.take_succ_cons]

lemma colorRules_length (cellvals : List String) (pool : List Color) :
    (colorRules cellvals pool).length = min cellvals.length pool.length := by
  simp [colorRules]

lemma colorRules_getD (vs : List String) (cs : List Color) (i : Nat)
    (hv : i < vs.length) (hc : i < cs.length) :
    (colorRules vs cs).getD i "" =
      vs.getD i "" ++ " " ++ (cs.getD i ⟨0, 0, 0⟩).format := by
  induction vs generalizing cs i with
  | nil => simp at hv
  | cons v vt ih =>
    cases cs with
    | nil => simp at hc
    | cons c ct =>
      rw [colorRules_cons]
      cases i with
      | zero => rfl
      | succ n =>
        simp only [List.getD_cons_succ]
        exact ih ct n (by simpa using hv) (by simpa using hc)

lemma hasCatLabel_foldl (labels : List String) (acc : Bool) :
    labels.foldl (fun acc label => if containsTab label then acc else false) acc
      = (acc && labels.all containsTab) := by
  induction labels generalizing acc with
  | nil => simp
  | cons l ls ih =>
    rw [List.foldl_cons, ih]
    cases h : containsTab l <;> simp [h, List.all_cons, Bool.and_assoc]

lemma hasCatLabel_eq_all (labels : List String) :
    hasCatLabel labels = labels.all containsTab := by
  rw [hasCatLabel, hasCatLabel_foldl, Bool.true_and]

lemma categoryText_eq_join (statLines : List String) :
    categoryText statLines =
      String.join (statLines.map fun line => labelRule line ++ "\n") := by
  simp [categoryText, String.join, List.foldl_map]

/-- Trace shape of a run that takes the random branch. -/
lemma main_random (opts : Options) (env : Env)
    (h1 : env.findProgram "v.colors.to.rast" = true)
    (h2 : env.findProgram "r.colors.fuzzy_lc" = true)
    (hc : opts.color_column = "")
    (hl : hasCatLabel env.categoryLines = false) :
    main opts env =
      Event.queryCategories opts.map :: Event.warning missingLabelsMsg ::
        randomStrategy opts.map env := by
  simp [main, h1, h2, hc, hl]

lemma writeColorRules_mem_randomStrategy (map : String) (env : Env) :
    Event.writeColorRules (colorRules (cellVals (env.stats 0)) (randomColorPool env.rand))
      ∈ randomStrategy map env := by
  unfold randomStrategy
  refine List.mem_cons_of_mem _ (List.mem_append_left _ (List.mem_append_right _ ?_))
  simp [tableEvents]

/-! ### Claim theorems -/

/-- C5: `hasCatLabel` (the CategoryLabelInspector verdict) is true if and
only if every entry of the category listing contains the tab field
separator; a single separator-less entry forces false even when every other
entry is labeled, so partial labeling behaves like no labeling. -/
theorem hasCatLabel_complete_iff (labels : List String) :
    hasCatLabel labels = true ↔ ∀ l ∈ labels, containsTab l = true := by
  rw [hasCatLabel_eq_all]
  exact List.all_eq_true

/-- C6: the random color pool always holds exactly 40 colors and every
channel of every pool color lies in the half-open range `[0, 255)`, i.e. is
at most 254 (and, being a natural number, at least 0); 255 is never
produced. -/
theorem pool_size_and_range (rand : Nat → Nat) :
    (randomColorPool rand).length = 40 ∧
    ∀ c ∈ randomColorPool rand, c.r ≤ 254 ∧ c.g ≤ 254 ∧ c.b ≤ 254 := by
  refine ⟨randomColorPool_length rand, ?_⟩
  intro c hc
  simp only [randomColorPool, List.mem_map, List.mem_range] at hc
  obtain ⟨i, _, rfl⟩ := hc
  refine ⟨?_, ?_, ?_⟩ <;> · simp only [randrange]; omega

/-- C7: if either capability probe fails, the run is exactly one fatal event
carrying a remediation message that names the `g.extension` installation
step; in particular no category listing query, no metadata read or write and
no strategy event occurs. -/
theorem capability_gate (opts : Options) (env : Env)
    (h : env.findProgram "v.colors.to.rast" = false ∨
      env.findProgram "r.colors.fuzzy_lc" = false) :
    main opts env = [Event.fatal vColorsFatalMsg] ∨
    main opts env = [Event.fatal fuzzyFatalMsg] := by
  by_cases h1 : env.findProgram "v.colors.to.rast" = false
  · left
    simp [main, h1]
  · right
    have h1' : env.findProgram "v.colors.to.rast" = true := by
      revert h1
      cases env.findProgram "v.colors.to.rast" <;> simp
    rcases h with h | h
    · exact absurd h h1
    · simp [main, h1', h]

/-- C7 witness: with a probe that reports every module missing, the run is
the single fatal event for v.colors.to.rast. -/
theorem capability_gate_witness :
    main optsPlain envNoProbe = [Event.fatal vColorsFatalMsg] ∨
    main optsPlain envNoProbe = [Event.fatal fuzzyFatalMsg] :=
  capability_gate optsPlain envNoProbe (Or.inl rfl)

/-- C10: when the category listing is empty, `hasCatLabel` is vacuously
true, so a run without a color column selects the fuzzy-match strategy and
never reaches the random strategy. -/
theorem empty_listing_fuzzy (opts : Options) (env : Env)
    (h1 : env.findProgram "v.colors.to.rast" = true)
    (h2 : env.findProgram "r.colors.fuzzy_lc" = true)
    (hc : opts.color_column = "")
    (he : env.categoryLines = []) :
    main opts env =
      [Event.queryCategories opts.map, Event.message matchingMsg,
       Event.runFuzzyLC opts.map] := by
  have hl : hasCatLabel env.categoryLines = true := by rw [he]; rfl
  simp [main, h1, h2, hc, hl]

/-- C10 witness: the empty-listing environment runs fuzzy matching. -/
theorem empty_listing_fuzzy_witness :
    main optsPlain envNoCats =
      [Event.queryCategories "m", Event.message matchingMsg,
       Event.runFuzzyLC "m"] :=
  empty_listing_fuzzy optsPlain envNoCats rfl rfl rfl rfl

/-- Marker for "a strategy began executing": the attribute-strategy module
invocation, the fuzzy-strategy module invocation, or the opening of the
color-rule feed that every random-strategy run performs. -/
def isStrategyStart (e : Event) : Bool :=
  match e with
  | Event.runVColorsToRast _ _ _ _ => true
  | Event.runFuzzyLC _ => true
  | Event.openColorFeed _ => true
  | _ => false

lemma randomStrategy_countP (map : String) (env : Env) :
    (randomStrategy map env).countP isStrategyStart = 1 := by
  unfold randomStrategy fallbackEvents tableEvents labelEvents
  split <;> split <;>
    simp [List.countP_cons, List.countP_append, isStrategyStart]

/-- C2: strategy selection follows the ordered decision table: a non-empty
color column selects the attribute strategy with referencemap, color_column
and class_column forwarded verbatim regardless of label completeness;
otherwise complete labels select the fuzzy strategy on the target map alone;
otherwise the missing-labels warning precedes the random strategy.  In every
case exactly one strategy executes. -/
theorem strategy_selection (opts : Options) (env : Env)
    (h1 : env.findProgram "v.colors.to.rast" = true)
    (h2 : env.findProgram "r.colors.fuzzy_lc" = true) :
    (opts.color_column ≠ "" →
      main opts env =
        [Event.queryCategories opts.map,
         Event.message (usingColorsMsg opts.color_column),
         Event.runVColorsToRast opts.referencemap opts.map opts.color_column
           opts.class_column]) ∧
    (opts.color_column = "" → hasCatLabel env.categoryLines = true →
      main opts env =
        [Event.queryCategories opts.map, Event.message matchingMsg,
         Event.runFuzzyLC opts.map]) ∧
    (opts.color_column = "" → hasCatLabel env.categoryLines = false →
      main opts env =
        Event.queryCategories opts.map :: Event.warning missingLabelsMsg ::
          randomStrategy opts.map env) ∧
    (main opts env).countP isStrategyStart = 1 := by
  refine ⟨fun hc => by simp [main, h1, h2, hc],
    fun hc hl => by simp [main, h1, h2, hc, hl],
    fun hc hl => by simp [main, h1, h2, hc, hl], ?_⟩
  by_cases hc : opts.color_column = ""
  · by_cases hl : hasCatLabel env.categoryLines
    · simp [main, h1, h2, hc, hl, List.countP_cons, isStrategyStart]
    · rw [main_random opts env h1 h2 hc (by simpa using hl)]
      simp [List.countP_cons, isStrategyStart, randomStrategy_countP]
  · simp [main, h1, h2, hc, List.countP_cons, isStrategyStart]

/-- C2 witness: supplying the collective triple selects the attribute
strategy with the three values forwarded verbatim, and exactly one strategy
runs. -/
theorem strategy_selection_witness :
    main optsAttr envLabeled =
      [Event.queryCategories "m", Event.message (usingColorsMsg "col"),
       Event.runVColorsToRast "refmap" "m" "col" "cls"] ∧
    (main optsAttr envLabeled).countP isStrategyStart = 1 := by
  have h := strategy_selection optsAttr envLabeled rfl rfl
  exact ⟨h.1 (by decide), h.2.2.2⟩

/-- C3: on the random branch with N ≤ 40 distinct values, the streamed
color table has exactly N rule lines, the i-th line pairing the i-th
distinct value (statistics order, not re-sorted) with the i-th pool color
in the form `value R:G:B`, the pool truncated to its first N colors. -/
theorem random_small_N (opts : Options) (env : Env)
    (h1 : env.findProgram "v.colors.to.rast" = true)
    (h2 : env.findProgram "r.colors.fuzzy_lc" = true)
    (hc : opts.color_column = "")
    (hl : hasCatLabel env.categoryLines = false)
    (hn : (cellVals (env.stats 0)).length ≤ 40) :
    Event.writeColorRules
        (colorRules (cellVals (env.stats 0)) (randomColorPool env.rand))
      ∈ main opts env ∧
    (colorRules (cellVals (env.stats 0)) (randomColorPool env.rand)).length
      = (cellVals (env.stats 0)).length ∧
    ∀ i, i < (cellVals (env.stats 0)).length →
      (colorRules (cellVals (env.stats 0)) (randomColorPool env.rand)).getD i ""
        = (cellVals (env.stats 0)).getD i "" ++ " "
            ++ ((randomColorPool env.rand).getD i ⟨0, 0, 0⟩).format := by
  refine ⟨?_, ?_, ?_⟩
  · rw [main_random opts env h1 h2 hc hl]
    exact List.mem_cons_of_mem _ (List.mem_cons_of_mem _
      (writeColorRules_mem_randomStrategy opts.map env))
  · rw [colorRules_length, randomColorPool_length]
    omega
  · intro i hi
    exact colorRules_getD _ _ i hi (by rw [randomColorPool_length]; omega)

/-- C3 witness: two distinct values yield a two-line table paired with the
first two pool colors. -/
theorem random_small_N_witness :
    Event.writeColorRules
        (colorRules (cellVals (envRand.stats 0)) (randomColorPool envRand.rand))
      ∈ main optsPlain envRand ∧
    (colorRules (cellVals (envRand.stats 0)) (randomColorPool envRand.rand)).length
      = (cellVals (envRand.stats 0)).length ∧
    ∀ i, i < (cellVals (envRand.stats 0)).length →
      (colorRules (cellVals (envRand.stats 0)) (randomColorPool envRand.rand)).getD i ""
        = (cellVals (envRand.stats 0)).getD i "" ++ " "
            ++ ((randomColorPool envRand.rand).getD i ⟨0, 0, 0⟩).format :=
  random_small_N optsPlain envRand rfl rfl rfl (by rfl)
    (by simp [cellVals, envRand])

/-- C1 counterexample: in the environment with 41 distinct values (N = 41 >
40) the run does build a color table from the generated pool — the stream
of zip-truncated rule lines (40 of them) is written — contradicting the
claim that the uniform random assignment is the only color-table action. -/
theorem random_large_N_cex :
    (cellVals (envMany.stats 0)).length = 41 ∧
    Event.writeColorRules
        (colorRules (cellVals (envMany.stats 0)) (randomColorPool envMany.rand))
      ∈ main optsPlain envMany ∧
    (colorRules (cellVals (envMany.stats 0)) (randomColorPool envMany.rand)).length
      = 40 := by
  refine ⟨by simp [cellVals, envMany], ?_, ?_⟩
  · rw [main_random optsPlain envMany rfl rfl rfl (by rfl)]
    exact List.mem_cons_of_mem _ (List.mem_cons_of_mem _
      (writeColorRules_mem_randomStrategy _ _))
  · rw [colorRules_length, randomColorPool_length]
    simp [cellVals, envMany]

/-- C1 (amended): on the random branch with N > 40 the run invokes the
external uniform random assignment on the whole map and emits the warning
naming the pool size 40, but it does not stop there: it still builds the
zip-truncated color table from the generated pool (40 rule lines pairing
the first 40 values with the pool) and streams it to the color-table
writer, overwriting the random assignment. -/
theorem random_large_N (opts : Options) (env : Env)
    (h1 : env.findProgram "v.colors.to.rast" = true)
    (h2 : env.findProgram "r.colors.fuzzy_lc" = true)
    (hc : opts.color_column = "")
    (hl : hasCatLabel env.categoryLines = false)
    (hn : 40 < (cellVals (env.stats 0)).length) :
    main opts env =
      Event.queryCategories opts.map :: Event.warning missingLabelsMsg ::
      Event.queryStats opts.map :: Event.runColorsRandom opts.map ::
      Event.warning (poolWarningMsg 40) ::
      Event.openColorFeed opts.map ::
      Event.writeColorRules
        (colorRules (cellVals (env.stats 0)) (randomColorPool env.rand)) ::
      Event.closeColorFeed :: Event.waitColorFeed ::
      Event.queryRasterInfo opts.map :: labelEvents opts.map env ∧
    (colorRules (cellVals (env.stats 0)) (randomColorPool env.rand)).length
      = 40 := by
  constructor
  · rw [main_random opts env h1 h2 hc hl]
    unfold randomStrategy fallbackEvents tableEvents
    rw [randomColorPool_length, if_pos hn]
    rfl
  · rw [colorRules_length, randomColorPool_length]
    omega

/-- C1 witness: the 41-value environment exhibits the fallback invocation,
the warning naming 40, and the subsequent 40-line table write. -/
theorem random_large_N_witness :
    main optsPlain envMany =
      Event.queryCategories "m" :: Event.warning missingLabelsMsg ::
      Event.queryStats "m" :: Event.runColorsRandom "m" ::
      Event.warning (poolWarningMsg 40) ::
      Event.openColorFeed "m" ::
      Event.writeColorRules
        (colorRules (cellVals (envMany.stats 0)) (randomColorPool envMany.rand)) ::
      Event.closeColorFeed :: Event.waitColorFeed ::
      Event.queryRasterInfo "m" :: labelEvents "m" envMany ∧
    (colorRules (cellVals (envMany.stats 0)) (randomColorPool envMany.rand)).length
      = 40 :=
  random_large_N optsPlain envMany rfl rfl rfl (by rfl)
    (by simp [cellVals, envMany])

/-- C8: on the random branch the full event order is fixed: the color-rule
stream is populated, then closed, then waited on, and only after that does
the datatype query run; when the datatype is CELL, the fresh statistics
re-query follows, and the label stream is likewise populated, closed and
waited on last.  No later step precedes completion of an earlier write. -/
theorem writes_ordered (opts : Options) (env : Env)
    (h1 : env.findProgram "v.colors.to.rast" = true)
    (h2 : env.findProgram "r.colors.fuzzy_lc" = true)
    (hc : opts.color_column = "")
    (hl : hasCatLabel env.categoryLines = false) :
    main opts env =
      [Event.queryCategories opts.map, Event.warning missingLabelsMsg,
       Event.queryStats opts.map] ++
      fallbackEvents opts.map env ++
      [Event.openColorFeed opts.map,
       Event.writeColorRules
         (colorRules (cellVals (env.stats 0)) (randomColorPool env.rand)),
       Event.closeColorFeed, Event.waitColorFeed,
       Event.queryRasterInfo opts.map] ++
      (if env.datatype = "CELL" then
        [Event.queryStats opts.map, Event.openCategoryFeed opts.map,
         Event.writeCategoryText (categoryText (env.stats 1)),
         Event.closeCategoryFeed, Event.waitCategoryFeed]
      else []) := by
  rw [main_random opts env h1 h2 hc hl]
  unfold randomStrategy tableEvents labelEvents
  simp

/-- C8 witness: the concrete CELL-typed random run has exactly this ordered
trace. -/
theorem writes_ordered_witness :
    main optsPlain envRand =
      [Event.queryCategories "m", Event.warning missingLabelsMsg,
       Event.queryStats "m"] ++
      fallbackEvents "m" envRand ++
      [Event.openColorFeed "m",
       Event.writeColorRules
         (colorRules (cellVals (envRand.stats 0)) (randomColorPool envRand.rand)),
       Event.closeColorFeed, Event.waitColorFeed,
       Event.queryRasterInfo "m"] ++
      (if envRand.datatype = "CELL" then
        [Event.queryStats "m", Event.openCategoryFeed "m",
         Event.writeCategoryText (categoryText (envRand.stats 1)),
         Event.closeCategoryFeed, Event.waitCategoryFeed]
      else []) :=
  writes_ordered optsPlain envRand rfl rfl rfl (by rfl)

/-- C4: on the random branch a label write occurs if and only if the
datatype is CELL; when it occurs its content is built from the fresh second
statistics query (index 1, not the first query's result), with one rule
line value|value — the label equal to the stringified value — per returned
entry; the theorem imposes no constraint on N, so this holds on both the
N ≤ 40 and N > 40 paths.  For FCELL or DCELL datatypes no label write
occurs. -/
theorem label_write_iff_cell (opts : Options) (env : Env)
    (h1 : env.findProgram "v.colors.to.rast" = true)
    (h2 : env.findProgram "r.colors.fuzzy_lc" = true)
    (hc : opts.color_column = "")
    (hl : hasCatLabel env.categoryLines = false) :
    (env.datatype = "CELL" →
      Event.writeCategoryText (categoryText (env.stats 1)) ∈ main opts env ∧
      categoryText (env.stats 1) =
        String.join ((env.stats 1).map fun line =>
          (firstField line ++ "|" ++ firstField line) ++ "\n")) ∧
    (env.datatype ≠ "CELL" →
      ∀ text, Event.writeCategoryText text ∉ main opts env) := by
  constructor
  · intro hd
    constructor
    · rw [main_random opts env h1 h2 hc hl]
      unfold randomStrategy labelEvents
      rw [if_pos hd]
      simp
    · rw [categoryText_eq_join]
      rfl
  · intro hd text
    rw [main_random opts env h1 h2 hc hl]
    unfold randomStrategy fallbackEvents tableEvents labelEvents
    rw [if_neg hd]
    by_cases hf : (cellVals (env.stats 0)).length > (randomColorPool env.rand).length <;>
      simp [hf]

/-- C4 witness: in the CELL-typed random run the label write with the
second query's value|value text is in the trace. -/
theorem label_write_iff_cell_witness :
    Event.writeCategoryText (categoryText (envRand.stats 1))
      ∈ main optsPlain envRand ∧
    categoryText (envRand.stats 1) =
      String.join ((envRand.stats 1).map fun line =>
        (firstField line ++ "|" ++ firstField line) ++ "\n") :=
  (label_write_iff_cell optsPlain envRand rfl rfl rfl (by rfl)).1 rfl

/-- C9: when the statistics service returns zero distinct values the
color-table write is still issued, with an empty rule list, and the run
contains no fatal event. -/
theorem empty_stats_write (opts : Options) (env : Env)
    (h1 : env.findProgram "v.colors.to.rast" = true)
    (h2 : env.findProgram "r.colors.fuzzy_lc" = true)
    (hc : opts.color_column = "")
    (hl : hasCatLabel env.categoryLines = false)
    (hs : env.stats 0 = []) :
    Event.writeColorRules [] ∈ main opts env ∧
    ∀ msg, Event.fatal msg ∉ main opts env := by
  constructor
  · rw [main_random opts env h1 h2 hc hl]
    have h := writeColorRules_mem_randomStrategy opts.map env
    rw [hs] at h
    exact List.mem_cons_of_mem _ (List.mem_cons_of_mem _ h)
  · intro msg
    rw [main_random opts env h1 h2 hc hl]
    unfold randomStrategy fallbackEvents tableEvents labelEvents
    by_cases hf : (cellVals (env.stats 0)).length > (randomColorPool env.rand).length <;>
      by_cases hd : env.datatype = "CELL" <;>
        simp [hf, hd]

/-- C9 witness: the empty-statistics environment issues the empty table
write and reaches no fatal. -/
theorem empty_stats_write_witness :
    Event.writeColorRules [] ∈ main optsPlain envEmpty ∧
    ∀ msg, Event.fatal msg ∉ main optsPlain envEmpty :=
  empty_stats_write optsPlain envEmpty rfl rfl rfl (by rfl) rfl

end RColorsLc
